import Mathlib

/-!
Shallow embedding of the vibe-check voting widget.

The embedded code:
* `src/src/hooks/useVibeMeter.ts` — the vote aggregator and realtime
  reconciler hook (`fetchCounts`, `vote`, the realtime subscription handler);
* `src/src/hooks/useEventId.ts` — the event scope resolver;
* `src/src/components/PhysicsVoteCanvas.tsx` (and its revision in
  `src/unnamed/part_002`) — the animation surface's `addEmoji` operation.

Modelling conventions: React state updates become explicit state passing on a
`HookState` record; the fallible supabase calls take their result
(`Except Unit _`) as an argument; `setTimeout` is modelled by returning the
scheduled timers; callback invocations are returned as a list of the values
passed; the physics world is the list of bodies in insertion order
(`Matter.Composite.allBodies` returns bodies in the order they were added, and
`Matter.Composite.remove` removes an individual body by reference, modelled by
a fresh numeric identifier per body; a body's random position, radius and
angular velocity affect no claimed property and are not carried).
-/

namespace VibeCheck

/-- The three valid vote categories (`VibeType` in `useVibeMeter.ts`). -/
inductive VibeType
  | fire
  | meh
  | sleep
  deriving DecidableEq, Repr

/-- The string of a category as it is stored in the `vibe` column. -/
def VibeType.toString : VibeType → String
  | .fire => "fire"
  | .meh => "meh"
  | .sleep => "sleep"

/-- The `VoteCounts` record of `useVibeMeter.ts`. -/
structure VoteCounts where
  fire : Nat
  meh : Nat
  sleep : Nat
  deriving DecidableEq, Repr

/-- A row of the `votes` table as the client sees it: the `vibe` column is a
raw string (the realtime payload is cast, not validated) and the `event_id`
column scopes the row to one poll. -/
structure VoteRow where
  vibe : String
  event_id : String
  deriving DecidableEq, Repr

/-- The pieces of React state held by `useVibeMeter`. -/
structure HookState where
  counts : VoteCounts
  isLoading : Bool
  isVoting : Bool
  error : Option String
  lastVotedVibe : Option VibeType
  deriving DecidableEq, Repr

/-- The `useState` initializers of `useVibeMeter`. -/
def initialHookState : HookState :=
  { counts := ⟨0, 0, 0⟩, isLoading := true, isVoting := false,
    error := none, lastVotedVibe := none }

/-- The own-property keys inherited by every plain object from
`Object.prototype`: the JavaScript `in` operator in `fetchCounts`'s
`if (vibe in newCounts)` also answers true for these. -/
def objectPrototypeKeys : List String :=
  ["constructor", "hasOwnProperty", "isPrototypeOf", "propertyIsEnumerable",
   "toLocaleString", "toString", "valueOf",
   "__defineGetter__", "__defineSetter__", "__lookupGetter__",
   "__lookupSetter__", "__proto__"]

/-- `vibe in newCounts` for `newCounts : VoteCounts`: true for the three count
fields and for the keys inherited from `Object.prototype`. -/
def jsInVoteCounts (vibe : String) : Bool :=
  vibe == "fire" || vibe == "meh" || vibe == "sleep"
    || objectPrototypeKeys.contains vibe

/-- `newCounts[vibe]++`: for one of the three field names it bumps that field;
for any other string (only inherited prototype keys reach this write in
`fetchCounts`) the write creates an own property that is none of the three
counts, so the record of counts is unchanged. -/
def bumpCount (c : VoteCounts) (vibe : String) : VoteCounts :=
  if vibe = "fire" then { c with fire := c.fire + 1 }
  else if vibe = "meh" then { c with meh := c.meh + 1 }
  else if vibe = "sleep" then { c with sleep := c.sleep + 1 }
  else c

/-- One iteration of the `data?.forEach((vote) => ...)` loop of `fetchCounts`:
the accumulator is `(newCounts, initialVibes)`. -/
def fetchReduceStep (acc : VoteCounts × List String) (vibe : String) :
    VoteCounts × List String :=
  if jsInVoteCounts vibe then (bumpCount acc.1 vibe, acc.2 ++ [vibe])
  else acc

/-- `fetchCounts` of `useVibeMeter.ts`. The supabase query's outcome is the
`result` argument: `.ok data` carries the `vibe` strings of the rows the
query returned, `.error` is a failed retrieval. On success the counts are
recomputed from scratch and the error flag cleared; on failure the counts are
left as they were and the error flag is set; `finally` clears the loading flag
on both paths. The second component is the returned `initialVibes` list. The
function issues exactly one retrieval per call: a failure is not retried. -/
def fetchCounts (st : HookState) (result : Except Unit (List String)) :
    HookState × List String :=
  match result with
  | .ok data =>
      let r := data.foldl fetchReduceStep (⟨0, 0, 0⟩, [])
      ({ st with counts := r.1, error := none, isLoading := false }, r.2)
  | .error _ =>
      ({ st with error := some "Failed to load votes", isLoading := false }, [])

/-- The rows the bulk-fetch query returns from a table state `db`:
`.from('votes').select('vibe').eq('event_id', eventId)`. -/
def selectVibes (db : List VoteRow) (eventId : String) : List String :=
  (db.filter (fun r => r.event_id == eventId)).map VoteRow.vibe

/-- The single kind of timer `useVibeMeter` schedules: the 1.5 s
`setTimeout(() => setLastVotedVibe(null), 1500)`. -/
inductive TimerAction
  | clearLastVoted
  deriving DecidableEq, Repr

/-- What a `vote` call produces: the hook state when the call completes, the
rows the insert persisted, and the timers scheduled (delay in ms, action). -/
structure VoteOutcome where
  state : HookState
  inserted : List VoteRow
  timers : List (Nat × TimerAction)
  deriving DecidableEq, Repr

/-- `vote` of `useVibeMeter.ts`. If a submission is in flight the call
returns at once, touching nothing. Otherwise `isVoting` is set, the error is
cleared, one row is inserted; the `insertResult` argument is the insert's
outcome. On success the last-voted marker is set and a 1.5 s timer scheduled
to clear it; on failure the error flag is set and no row was persisted;
`finally` releases the in-flight guard on both paths. -/
def vote (st : HookState) (vibe : VibeType) (eventId : String)
    (insertResult : Except Unit Unit) : VoteOutcome :=
  if st.isVoting then ⟨st, [], []⟩
  else
    match insertResult with
    | .ok _ =>
        ⟨{ st with isVoting := false, error := none, lastVotedVibe := some vibe },
         [⟨vibe.toString, eventId⟩], [(1500, TimerAction.clearLastVoted)]⟩
    | .error _ =>
        ⟨{ st with
            isVoting := false
            error := some "Vote failed. Please try again." }, [], []⟩

/-- Firing a scheduled timer against the state current at that moment. -/
def runTimer (st : HookState) : TimerAction → HookState
  | .clearLastVoted => { st with lastVotedVibe := none }

/-- An insertion notification pushed by the change feed: the new row's
fields, of which the handler reads `payload.new.vibe`. -/
structure Notification where
  vibe : String
  event_id : String
  deriving DecidableEq, Repr

/-- The realtime subscription handler of `useVibeMeter.ts`: if
`['fire', 'meh', 'sleep'].includes(vibe)` it rebuilds the counts with that
category's field incremented (`{ ...prev, [vibe]: prev[vibe] + 1 }`, which for
a key among the three fields coincides with `bumpCount`) and invokes the
registered `onNewVote` callback with the category. The second component lists
the values passed to the callback. -/
def handleInsert (st : HookState) (n : Notification) : HookState × List String :=
  if n.vibe == "fire" || n.vibe == "meh" || n.vibe == "sleep" then
    ({ st with counts := bumpCount st.counts n.vibe }, [n.vibe])
  else (st, [])

/-- Delivery of a change-feed notification through the subscription's
server-side filter `event_id=eq.${eventId}`: a notification for a different
event identifier never reaches the handler. -/
def deliverNotification (st : HookState) (eventId : String) (n : Notification) :
    HookState × List String :=
  if n.event_id == eventId then handleInsert st n else (st, [])

/-- The error text the page's footer renders: `{error && <p>{error}</p>}` in
the index page shows the error string when it is truthy (a non-empty string). -/
def renderedError (st : HookState) : Option String :=
  match st.error with
  | some s => if s == "" then none else some s
  | none => none

/-- `useEventId` of `useEventId.ts`: `searchParams.get('event') || 'default'`.
The argument is the query parameter's value, `none` when absent; `get`
returns `null` then, and `||` replaces both `null` and the falsy empty
string with the sentinel. -/
def useEventId (eventParam : Option String) : String :=
  match eventParam with
  | none => "default"
  | some s => if s = "" then "default" else s

/-- Reading a count field by the category string (vocabulary for stating the
claims; total, defaulting to the `sleep` field). -/
def countOf (c : VoteCounts) (v : String) : Nat :=
  if v = "fire" then c.fire else if v = "meh" then c.meh else c.sleep

/-- Claim C10: an "event" query parameter equal to the empty string resolves
to the sentinel "default", exactly as when the parameter is absent. -/
theorem useEventId_empty_eq_absent :
    useEventId (some "") = "default" ∧ useEventId none = "default" := by
  constructor <;> rfl

/-- Claim C4: a `vote` call while a submission is in flight is a no-op —
no row is inserted, no timer scheduled, and the state is returned untouched,
whatever the insert's outcome would have been. -/
theorem vote_noop_when_inflight (st : HookState) (v : VibeType) (e : String)
    (res : Except Unit Unit) (h : st.isVoting = true) :
    vote st v e res = ⟨st, [], []⟩ := by
  simp [vote, h]

/-- Witness for C4 at a concrete in-flight state. -/
theorem vote_noop_when_inflight_witness :
    ({ initialHookState with isVoting := true } : HookState).isVoting = true ∧
    vote { initialHookState with isVoting := true } VibeType.fire "default"
        (.ok ()) =
      ⟨{ initialHookState with isVoting := true }, [], []⟩ :=
  ⟨rfl, vote_noop_when_inflight { initialHookState with isVoting := true }
    VibeType.fire "default" (.ok ()) rfl⟩

/-- Claim C5: when the bulk fetch fails the counts keep their previous value
(zero on a first call, starting from the initial state), the error flag is
set to "Failed to load votes", and the loading flag clears just as on a
successful fetch; the model performs one retrieval per call, so no retry
occurs. -/
theorem fetchCounts_failure (st : HookState) (data : List String) :
    (fetchCounts st (.error ())).1.counts = st.counts ∧
    (fetchCounts st (.error ())).1.error = some "Failed to load votes" ∧
    (fetchCounts st (.error ())).1.isLoading = false ∧
    (fetchCounts initialHookState (.error ())).1.counts = ⟨0, 0, 0⟩ ∧
    (fetchCounts st (.ok data)).1.isLoading = false := by
  refine ⟨rfl, rfl, rfl, rfl, ?_⟩
  simp [fetchCounts]

/-- Claim C2: a delivered change-feed insertion whose category is one of
{fire, meh, sleep} increments exactly that category's count by one, leaves the
two other counts unchanged, and passes the category to the registered
`onNewVote` callback exactly once. -/
theorem handleInsert_valid_vibe (st : HookState) (e : String) (n : Notification)
    (hev : n.event_id = e)
    (hv : n.vibe = "fire" ∨ n.vibe = "meh" ∨ n.vibe = "sleep") :
    countOf (deliverNotification st e n).1.counts n.vibe
        = countOf st.counts n.vibe + 1 ∧
    (∀ w, (w = "fire" ∨ w = "meh" ∨ w = "sleep") → w ≠ n.vibe →
      countOf (deliverNotification st e n).1.counts w = countOf st.counts w) ∧
    (deliverNotification st e n).2 = [n.vibe] := by
  subst hev
  rcases hv with hv | hv | hv <;>
    refine ⟨?_, fun w hw hne => ?_, ?_⟩ <;>
    first
      | (rcases hw with hw | hw | hw <;> subst hw <;>
          simp_all [deliverNotification, handleInsert, bumpCount, countOf])
      | simp [deliverNotification, handleInsert, bumpCount, countOf, hv]

/-- Witness for C2: a "fire" insertion for the subscribed event. -/
theorem handleInsert_valid_vibe_witness :
    (Notification.mk "fire" "default").event_id = "default" ∧
    ((Notification.mk "fire" "default").vibe = "fire" ∨
      (Notification.mk "fire" "default").vibe = "meh" ∨
      (Notification.mk "fire" "default").vibe = "sleep") ∧
    (countOf (deliverNotification initialHookState "default"
          (Notification.mk "fire" "default")).1.counts "fire"
        = countOf initialHookState.counts "fire" + 1 ∧
      (∀ w, (w = "fire" ∨ w = "meh" ∨ w = "sleep") → w ≠ "fire" →
        countOf (deliverNotification initialHookState "default"
            (Notification.mk "fire" "default")).1.counts w
          = countOf initialHookState.counts w) ∧
      (deliverNotification initialHookState "default"
          (Notification.mk "fire" "default")).2 = ["fire"]) :=
  ⟨rfl, Or.inl rfl,
    handleInsert_valid_vibe initialHookState "default"
      (Notification.mk "fire" "default") rfl (Or.inl rfl)⟩

/-- Claim C3: a change-feed notification with a category outside
{fire, meh, sleep}, or carrying a different event identifier, leaves the
whole hook state (in particular all three counts) unchanged and invokes no
callback. -/
theorem handleInsert_ignores_invalid (st : HookState) (e : String)
    (n : Notification)
    (h : (n.vibe ≠ "fire" ∧ n.vibe ≠ "meh" ∧ n.vibe ≠ "sleep") ∨
      n.event_id ≠ e) :
    (deliverNotification st e n).1 = st ∧
    (deliverNotification st e n).1.counts = st.counts ∧
    (deliverNotification st e n).2 = [] := by
  rcases h with ⟨h1, h2, h3⟩ | h
  · by_cases hev : n.event_id = e
    · refine ⟨?_, ?_, ?_⟩ <;>
        simp [deliverNotification, handleInsert, hev, h1, h2, h3]
    · refine ⟨?_, ?_, ?_⟩ <;> simp [deliverNotification, hev]
  · refine ⟨?_, ?_, ?_⟩ <;> simp [deliverNotification, h]

/-- Witness for C3: an unrecognized category "banana" on the right event. -/
theorem handleInsert_ignores_invalid_witness :
    (((Notification.mk "banana" "default").vibe ≠ "fire" ∧
        (Notification.mk "banana" "default").vibe ≠ "meh" ∧
        (Notification.mk "banana" "default").vibe ≠ "sleep") ∨
      (Notification.mk "banana" "default").event_id ≠ "default") ∧
    ((deliverNotification initialHookState "default"
        (Notification.mk "banana" "default")).1 = initialHookState ∧
      (deliverNotification initialHookState "default"
          (Notification.mk "banana" "default")).1.counts
        = initialHookState.counts ∧
      (deliverNotification initialHookState "default"
          (Notification.mk "banana" "default")).2 = []) :=
  ⟨Or.inl ⟨by decide, by decide, by decide⟩,
    handleInsert_ignores_invalid initialHookState "default"
      (Notification.mk "banana" "default")
      (Or.inl ⟨by decide, by decide, by decide⟩)⟩

/-- Claim C6: a `vote` call never touches the three displayed counts, whether
the call is a no-op, succeeds, or fails; the submitter's own count grows only
when the echo of its insert comes back through the change feed, which then
increments that category. -/
theorem vote_never_touches_counts (st : HookState) (v : VibeType) (e : String)
    (res : Except Unit Unit) :
    (vote st v e res).state.counts = st.counts ∧
    countOf (deliverNotification st e ⟨v.toString, e⟩).1.counts v.toString
      = countOf st.counts v.toString + 1 := by
  constructor
  · by_cases h : st.isVoting = true <;> cases res <;> simp [vote, h]
  · cases v <;>
      simp [deliverNotification, handleInsert, bumpCount, countOf,
        VibeType.toString]

/-- Claim C8: on a successful submission the last-voted marker is set to the
voted category at once, and the single scheduled timer fires 1500 ms later,
resetting the marker to none (no further interaction having replaced the
state); on a failed submission the marker is left untouched and no timer is
scheduled. -/
theorem vote_marker_set_then_cleared (st : HookState) (v : VibeType)
    (e : String) (h : st.isVoting = false) :
    ((vote st v e (.ok ())).state.lastVotedVibe = some v ∧
      (vote st v e (.ok ())).timers = [(1500, TimerAction.clearLastVoted)] ∧
      (runTimer (vote st v e (.ok ())).state
          TimerAction.clearLastVoted).lastVotedVibe = none) ∧
    ((vote st v e (.error ())).state.lastVotedVibe = st.lastVotedVibe ∧
      (vote st v e (.error ())).timers = []) := by
  refine ⟨⟨?_, ?_, ?_⟩, ?_, ?_⟩ <;> simp [vote, h, runTimer]

/-- Witness for C8 at the initial (idle) state. -/
theorem vote_marker_set_then_cleared_witness :
    initialHookState.isVoting = false ∧
    (((vote initialHookState VibeType.meh "default" (.ok ())).state.lastVotedVibe
          = some VibeType.meh ∧
        (vote initialHookState VibeType.meh "default" (.ok ())).timers
          = [(1500, TimerAction.clearLastVoted)] ∧
        (runTimer (vote initialHookState VibeType.meh "default" (.ok ())).state
            TimerAction.clearLastVoted).lastVotedVibe = none) ∧
      ((vote initialHookState VibeType.meh "default" (.error ())).state.lastVotedVibe
          = initialHookState.lastVotedVibe ∧
        (vote initialHookState VibeType.meh "default" (.error ())).timers = [])) :=
  ⟨rfl, vote_marker_set_then_cleared initialHookState VibeType.meh "default" rfl⟩

/-- Claim C9: a non-no-op `vote` call releases the in-flight guard when it
completes, on the success path and on the failure path alike; on failure the
error flag is set to "Vote failed. Please try again." and that text is
rendered by the page footer. -/
theorem vote_releases_guard (st : HookState) (v : VibeType) (e : String)
    (h : st.isVoting = false) :
    (vote st v e (.ok ())).state.isVoting = false ∧
    (vote st v e (.error ())).state.isVoting = false ∧
    (vote st v e (.error ())).state.error
      = some "Vote failed. Please try again." ∧
    renderedError (vote st v e (.error ())).state
      = some "Vote failed. Please try again." := by
  refine ⟨?_, ?_, ?_, ?_⟩ <;> simp [vote, h, renderedError]

/-- Witness for C9 at the initial (idle) state. -/
theorem vote_releases_guard_witness :
    initialHookState.isVoting = false ∧
    ((vote initialHookState VibeType.sleep "default" (.ok ())).state.isVoting
        = false ∧
      (vote initialHookState VibeType.sleep "default" (.error ())).state.isVoting
        = false ∧
      (vote initialHookState VibeType.sleep "default" (.error ())).state.error
        = some "Vote failed. Please try again." ∧
      renderedError (vote initialHookState VibeType.sleep "default"
          (.error ())).state = some "Vote failed. Please try again.") :=
  ⟨rfl, vote_releases_guard initialHookState VibeType.sleep "default" rfl⟩

/-- `bumpCount` changes the `fire` field exactly when the key is "fire". -/
theorem bumpCount_fire (c : VoteCounts) (v : String) :
    (bumpCount c v).fire = c.fire + (if v = "fire" then 1 else 0) := by
  by_cases h1 : v = "fire"
  · simp [bumpCount, h1]
  · by_cases h2 : v = "meh"
    · simp [bumpCount, h1, h2]
    · by_cases h3 : v = "sleep" <;> simp [bumpCount, h1, h2, h3]

/-- `bumpCount` changes the `meh` field exactly when the key is "meh". -/
theorem bumpCount_meh (c : VoteCounts) (v : String) :
    (bumpCount c v).meh = c.meh + (if v = "meh" then 1 else 0) := by
  by_cases h1 : v = "fire"
  · simp [bumpCount, h1]
  · by_cases h2 : v = "meh"
    · simp [bumpCount, h1, h2]
    · by_cases h3 : v = "sleep" <;> simp [bumpCount, h1, h2, h3]

/-- `bumpCount` changes the `sleep` field exactly when the key is "sleep". -/
theorem bumpCount_sleep (c : VoteCounts) (v : String) :
    (bumpCount c v).sleep = c.sleep + (if v = "sleep" then 1 else 0) := by
  by_cases h1 : v = "fire"
  · simp [bumpCount, h1]
  · by_cases h2 : v = "meh"
    · simp [bumpCount, h1, h2]
    · by_cases h3 : v = "sleep" <;> simp [bumpCount, h1, h2, h3]

/-- One forEach iteration adds one to the `fire` count exactly for a "fire"
row: a "fire" key passes the `in` test, and a key failing the `in` test is
none of the three fields. -/
theorem fetchReduceStep_fire (acc : VoteCounts × List String) (v : String) :
    (fetchReduceStep acc v).1.fire
      = acc.1.fire + (if v = "fire" then 1 else 0) := by
  by_cases h : jsInVoteCounts v = true
  · simp [fetchReduceStep, h, bumpCount_fire]
  · have hv : ¬v = "fire" := by
      intro e
      subst e
      simp [jsInVoteCounts] at h
    simp [fetchReduceStep, h, hv]

/-- One forEach iteration adds one to the `meh` count exactly for a "meh"
row. -/
theorem fetchReduceStep_meh (acc : VoteCounts × List String) (v : String) :
    (fetchReduceStep acc v).1.meh
      = acc.1.meh + (if v = "meh" then 1 else 0) := by
  by_cases h : jsInVoteCounts v = true
  · simp [fetchReduceStep, h, bumpCount_meh]
  · have hv : ¬v = "meh" := by
      intro e
      subst e
      simp [jsInVoteCounts] at h
    simp [fetchReduceStep, h, hv]

/-- One forEach iteration adds one to the `sleep` count exactly for a "sleep"
row. -/
theorem fetchReduceStep_sleep (acc : VoteCounts × List String) (v : String) :
    (fetchReduceStep acc v).1.sleep
      = acc.1.sleep + (if v = "sleep" then 1 else 0) := by
  by_cases h : jsInVoteCounts v = true
  · simp [fetchReduceStep, h, bumpCount_sleep]
  · have hv : ¬v = "sleep" := by
      intro e
      subst e
      simp [jsInVoteCounts] at h
    simp [fetchReduceStep, h, hv]

/-- The forEach loop of `fetchCounts` counts the rows of each category. -/
theorem fetchReduce_counts (data : List String) :
    ∀ acc : VoteCounts × List String,
      (data.foldl fetchReduceStep acc).1.fire
          = acc.1.fire + (data.filter (fun v => v = "fire")).length ∧
      (data.foldl fetchReduceStep acc).1.meh
          = acc.1.meh + (data.filter (fun v => v = "meh")).length ∧
      (data.foldl fetchReduceStep acc).1.sleep
          = acc.1.sleep + (data.filter (fun v => v = "sleep")).length := by
  induction data with
  | nil => intro acc; simp
  | cons v t ih =>
    intro acc
    rw [List.foldl_cons]
    obtain ⟨ihf, ihm, ihs⟩ := ih (fetchReduceStep acc v)
    rw [ihf, ihm, ihs, fetchReduceStep_fire, fetchReduceStep_meh,
      fetchReduceStep_sleep]
    refine ⟨?_, ?_, ?_⟩
    · by_cases hv : v = "fire" <;> simp [List.filter_cons, hv] <;> omega
    · by_cases hv : v = "meh" <;> simp [List.filter_cons, hv] <;> omega
    · by_cases hv : v = "sleep" <;> simp [List.filter_cons, hv] <;> omega

/-- Claim C1: a successful bulk fetch sets each category's count to exactly
the number of fetched rows whose category equals it — rows with any other
category string contribute to no count — and in particular a fetch returning
2 fire rows, 0 meh and 1 sleep yields counts {fire 2, meh 0, sleep 1}. -/
theorem fetchCounts_exact (st : HookState) (data : List String) :
    (fetchCounts st (.ok data)).1.counts.fire
        = (data.filter (fun v => v = "fire")).length ∧
    (fetchCounts st (.ok data)).1.counts.meh
        = (data.filter (fun v => v = "meh")).length ∧
    (fetchCounts st (.ok data)).1.counts.sleep
        = (data.filter (fun v => v = "sleep")).length ∧
    (fetchCounts initialHookState (.ok ["fire", "fire", "sleep"])).1.counts
        = ⟨2, 0, 1⟩ := by
  obtain ⟨hf, hm, hs⟩ := fetchReduce_counts data (⟨0, 0, 0⟩, [])
  exact ⟨by simpa [fetchCounts] using hf, by simpa [fetchCounts] using hm,
    by simpa [fetchCounts] using hs, by rfl⟩

/-- A body of the physics world: `id` stands for the object's identity
(`Matter.Composite.remove` removes by reference), `isStatic` distinguishes the
walls from the falling emoji bodies, `vibeTag` is the `vibeType` tag stored on
emoji bodies. Random position, radius and angular velocity play no part in
the claimed properties and are not carried. -/
structure PBody where
  id : Nat
  isStatic : Bool
  vibeTag : Option VibeType
  deriving DecidableEq, Repr

/-- The state the `addEmoji` handle closes over: the readiness guard
(`engineRef`/`containerRef`/`isInitializedRef` all set), a fresh identity for
the next created body, and the world's bodies in insertion order. -/
structure PhysicsState where
  isReady : Bool
  nextId : Nat
  bodies : List PBody
  deriving DecidableEq, Repr

/-- The circular emoji body `addEmoji` creates (non-static, tagged). -/
def mkEmojiBody (vibe : VibeType) (id : Nat) : PBody :=
  { id := id, isStatic := false, vibeTag := some vibe }

/-- `Matter.Composite.allBodies(world).filter(b => !b.isStatic)`. -/
def dynamicBodies (bodies : List PBody) : List PBody :=
  bodies.filter (fun b => !b.isStatic)

/-- `addEmoji` of `PhysicsVoteCanvas.tsx`: if the engine is not ready it
returns at once; otherwise it adds one circular emoji body to the world, and
if the non-static population then exceeds 150 it removes the surplus oldest
bodies (`dynamicBodies.slice(0, dynamicBodies.length - 150)`), each by
reference. -/
def addEmoji (st : PhysicsState) (vibe : VibeType) : PhysicsState :=
  if !st.isReady then st
  else
    let body := mkEmojiBody vibe st.nextId
    let world := st.bodies ++ [body]
    let dyn := dynamicBodies world
    if dyn.length > 150 then
      let toRemove := dyn.take (dyn.length - 150)
      { isReady := st.isReady
        nextId := st.nextId + 1
        bodies := world.filter (fun b => !decide (b ∈ toRemove)) }
    else
      { isReady := st.isReady, nextId := st.nextId + 1, bodies := world }

/-- Body identities are distinct and below the next-identity counter: true of
the real world, where every created body is a fresh object. -/
def idsOk (st : PhysicsState) : Prop :=
    (st.bodies.map PBody.id).Nodup ∧ ∀ b ∈ st.bodies, b.id < st.nextId

/-- Filtering away exactly the members of a left part leaves the right part,
when nothing of the right part occurs in the left part. -/
theorem filter_not_mem_append {α : Type} [DecidableEq α] (l₁ l₂ : List α)
    (hd : ∀ b ∈ l₂, b ∉ l₁) :
    (l₁ ++ l₂).filter (fun b => !decide (b ∈ l₁)) = l₂ := by
  rw [List.filter_append]
  have h1 : l₁.filter (fun b => !decide (b ∈ l₁)) = [] := by
    rw [List.filter_eq_nil_iff]
    intro a ha
    simp [ha]
  have h2 : l₂.filter (fun b => !decide (b ∈ l₁)) = l₂ := by
    rw [List.filter_eq_self]
    intro a ha
    simp [hd a ha]
  rw [h1, h2, List.nil_append]

/-- In a duplicate-free list, filtering away the members of the first `k`
elements drops exactly those `k` elements. -/
theorem filter_not_mem_take {α : Type} [DecidableEq α] (m : List α)
    (hm : m.Nodup) (k : Nat) :
    m.filter (fun b => !decide (b ∈ m.take k)) = m.drop k := by
  have hnd : (m.take k ++ m.drop k).Nodup := by
    rw [List.take_append_drop]
    exact hm
  rw [List.nodup_append] at hnd
  have hd : ∀ b ∈ m.drop k, b ∉ m.take k := fun b hb hbt => hnd.2.2 hbt hb
  have key := filter_not_mem_append (m.take k) (m.drop k) hd
  rw [List.take_append_drop] at key
  exact key

/-- Two filters of one list commute. -/
theorem filter_swap {α : Type} (p q : α → Bool) (l : List α) :
    (l.filter q).filter p = (l.filter p).filter q := by
  induction l with
  | nil => rfl
  | cons a t ih =>
    by_cases hp : p a = true <;> by_cases hq : q a = true <;>
      simp [List.filter_cons, hp, hq, ih]

/-- `dynamicBodies` distributes over concatenation. -/
theorem dynamicBodies_append (l₁ l₂ : List PBody) :
    dynamicBodies (l₁ ++ l₂) = dynamicBodies l₁ ++ dynamicBodies l₂ := by
  simp [dynamicBodies, List.filter_append]

/-- With distinct identities below the counter, the world extended by a fresh
emoji body still has duplicate-free identities. -/
theorem world_ids_nodup (st : PhysicsState) (v : VibeType) (h1 : idsOk st) :
    ((st.bodies ++ [mkEmojiBody v st.nextId]).map PBody.id).Nodup := by
  rw [List.map_append, List.nodup_append]
  refine ⟨h1.1, by simp, ?_⟩
  intro a ha hb
  simp [mkEmojiBody] at hb
  obtain ⟨b, hbmem, hid⟩ := List.mem_map.mp ha
  have := h1.2 b hbmem
  omega

/-- The dynamic sublist of the extended world, in insertion order. -/
theorem addEmoji_world_dyn (st : PhysicsState) (v : VibeType) :
    dynamicBodies (st.bodies ++ [mkEmojiBody v st.nextId])
      = dynamicBodies st.bodies ++ [mkEmojiBody v st.nextId] := by
  rw [dynamicBodies_append]
  simp [dynamicBodies, mkEmojiBody]

/-- The heart of the cap logic: when the engine is ready, the dynamic bodies
after `addEmoji` are the previous dynamic bodies plus the new one, minus the
oldest surplus — uniformly a `drop` of the surplus size (zero when the cap is
not exceeded). -/
theorem addEmoji_dyn (st : PhysicsState) (v : VibeType) (h1 : idsOk st)
    (hinit : st.isReady = true) :
    dynamicBodies (addEmoji st v).bodies
      = (dynamicBodies st.bodies ++ [mkEmojiBody v st.nextId]).drop
          ((dynamicBodies st.bodies).length + 1 - 150) := by
  have hnodup : (dynamicBodies (st.bodies ++ [mkEmojiBody v st.nextId])).Nodup := by
    have hw : (st.bodies ++ [mkEmojiBody v st.nextId]).Nodup :=
      List.Nodup.of_map _ (world_ids_nodup st v h1)
    exact List.Nodup.sublist (List.filter_sublist _) hw
  rw [addEmoji, hinit]
  simp only [Bool.not_true, Bool.false_eq_true, if_false]
  by_cases hlen :
      (dynamicBodies (st.bodies ++ [mkEmojiBody v st.nextId])).length > 150
  · simp only [hlen, if_true]
    rw [show (fun b => !decide (b ∈ (dynamicBodies
          (st.bodies ++ [mkEmojiBody v st.nextId])).take
            ((dynamicBodies (st.bodies ++ [mkEmojiBody v st.nextId])).length
              - 150))) = _ from rfl]
    rw [dynamicBodies, filter_swap]
    rw [show List.filter (fun b => !b.isStatic)
        (st.bodies ++ [mkEmojiBody v st.nextId])
      = dynamicBodies (st.bodies ++ [mkEmojiBody v st.nextId]) from rfl]
    rw [filter_not_mem_take _ hnodup]
    rw [addEmoji_world_dyn] at hlen ⊢
    have : (dynamicBodies st.bodies ++ [mkEmojiBody v st.nextId]).length
        = (dynamicBodies st.bodies).length + 1 := by simp
    rw [this] at hlen ⊢
  · simp only [hlen, if_false]
    rw [addEmoji_world_dyn] at hlen ⊢
    have hle : (dynamicBodies st.bodies).length + 1 ≤ 150 := by
      simp at hlen
      simpa using hlen
    rw [Nat.sub_eq_zero_of_le hle, List.drop_zero]

/-- Whatever `addEmoji` keeps of the extended world is a sublist of it. -/
theorem addEmoji_bodies_sublist (st : PhysicsState) (v : VibeType)
    (hinit : st.isReady = true) :
    List.Sublist (addEmoji st v).bodies
      (st.bodies ++ [mkEmojiBody v st.nextId]) := by
  rw [addEmoji, hinit]
  simp only [Bool.not_true, Bool.false_eq_true, if_false]
  split
  · exact List.filter_sublist _
  · exact List.Sublist.refl _

/-- One `addEmoji` keeps identities distinct and below the counter, and keeps
the dynamic population within the cap. -/
theorem addEmoji_preserves (st : PhysicsState) (v : VibeType) (h1 : idsOk st)
    (h2 : (dynamicBodies st.bodies).length ≤ 150) :
    idsOk (addEmoji st v) ∧
      (dynamicBodies (addEmoji st v).bodies).length ≤ 150 := by
  by_cases hinit : st.isReady = true
  · have hsub := addEmoji_bodies_sublist st v hinit
    have hnext : (addEmoji st v).nextId = st.nextId + 1 := by
      rw [addEmoji, hinit]
      simp only [Bool.not_true, Bool.false_eq_true, if_false]
      split <;> rfl
    refine ⟨⟨?_, ?_⟩, ?_⟩
    · exact List.Nodup.sublist (hsub.map PBody.id) (world_ids_nodup st v h1)
    · intro b hb
      have hbw : b ∈ st.bodies ++ [mkEmojiBody v st.nextId] := hsub.mem hb
      rw [hnext]
      rcases List.mem_append.mp hbw with hmem | hmem
      · have := h1.2 b hmem
        omega
      · simp [mkEmojiBody] at hmem
        subst hmem
        simp [mkEmojiBody]
    · rw [addEmoji_dyn st v h1 hinit]
      rw [List.length_drop]
      simp only [List.length_append, List.length_cons, List.length_nil]
      omega
  · have hf : st.isReady = false := by
      cases hb : st.isReady
      · rfl
      · exact absurd hb hinit
    have hst : addEmoji st v = st := by
      simp [addEmoji, hf]
    rw [hst]
    exact ⟨h1, h2⟩

/-- A whole burst of `addEmoji` calls keeps the invariant. -/
theorem foldl_addEmoji_preserves (vs : List VibeType) :
    ∀ st : PhysicsState, idsOk st → (dynamicBodies st.bodies).length ≤ 150 →
      idsOk (vs.foldl addEmoji st) ∧
        (dynamicBodies (vs.foldl addEmoji st).bodies).length ≤ 150 := by
  induction vs with
  | nil => exact fun st h1 h2 => ⟨h1, h2⟩
  | cons v t ih =>
    intro st h1 h2
    rw [List.foldl_cons]
    obtain ⟨g1, g2⟩ := addEmoji_preserves st v h1 h2
    exact ih _ g1 g2

/-- Claim C7: from any world whose bodies have distinct identities and whose
live population respects the cap, any sequence of vote notifications fed to
`addEmoji` leaves at most 150 live (non-static) bodies; and each ready-engine
`addEmoji` retires exactly the oldest surplus bodies, in insertion order: the
live bodies afterwards are the previous ones plus the new body, with the
oldest `(population + 1) - 150` dropped from the front. -/
theorem addEmoji_cap_and_oldest (st : PhysicsState) (h1 : idsOk st)
    (h2 : (dynamicBodies st.bodies).length ≤ 150) (vs : List VibeType) :
    (dynamicBodies (vs.foldl addEmoji st).bodies).length ≤ 150 ∧
    (∀ v, st.isReady = true →
      dynamicBodies (addEmoji st v).bodies
        = (dynamicBodies st.bodies ++ [mkEmojiBody v st.nextId]).drop
            ((dynamicBodies st.bodies).length + 1 - 150)) :=
  ⟨(foldl_addEmoji_preserves vs st h1 h2).2,
    fun v hinit => addEmoji_dyn st v h1 hinit⟩

/-- Witness for C7: two notifications into the freshly initialized world. -/
theorem addEmoji_cap_and_oldest_witness :
    idsOk ⟨true, 0, []⟩ ∧
    (dynamicBodies (PhysicsState.mk true 0 []).bodies).length ≤ 150 ∧
    ((dynamicBodies ([VibeType.fire, VibeType.meh].foldl addEmoji
          ⟨true, 0, []⟩).bodies).length ≤ 150 ∧
      (∀ v, (PhysicsState.mk true 0 []).isReady = true →
        dynamicBodies (addEmoji ⟨true, 0, []⟩ v).bodies
          = (dynamicBodies (PhysicsState.mk true 0 []).bodies
              ++ [mkEmojiBody v 0]).drop
              ((dynamicBodies (PhysicsState.mk true 0 []).bodies).length
                + 1 - 150))) :=
  ⟨⟨by simp, by simp⟩, by simp [dynamicBodies],
    addEmoji_cap_and_oldest ⟨true, 0, []⟩ ⟨by simp, by simp⟩
      (by simp [dynamicBodies]) [VibeType.fire, VibeType.meh]⟩

end VibeCheck
